import Mathlib

/-!
Verification of the row-construction rule engine of `lib/resultfile.py`
(energobill billing-report generator).

The builders under `src/lib/resultfile.py` are embedded shallowly:

* a report row is a total map from field index to an optional cell value
  (the Python object carries attributes `f00` … `f46`, each `None` or a
  scalar); `set_field` / `get_field` / `as_list` mirror the Python methods;
* real-valued amounts are modelled as rationals, and the `%.4f` formatting
  of a quantity is modelled exactly (round half to even at four decimal
  places, then fixed-point rendering);
* the process-wide dictionary `GvsIpuInstallDates` is threaded through the
  builders as explicit state (an association list whose stored values may
  themselves be absent, as the Python code can store `None`);
* Python exceptions are modelled with `Option`: a builder whose
  construction can abort returns `Option Row`;
* the in-place mutation of a `GvsDetailsRecord` (counter-number synthesis)
  is modelled by returning the updated record next to the row.

Collaborator types that live in repository modules outside
`src/` (`lib/datatypes.py`, `lib/osvfile.py`, `lib/detailsfile.py`,
`lib/addressfile.py`, `lib/helpers.py`, `lib/reaccural.py`,
`lib/tariffs.py`) are modelled from the spec, as noted on each
definition.
-/

/-- Modelled from the spec: `MonthYear` of `lib/datatypes.py` (not under
`src/`): a billing period, `{month: 1-12, year: integer}`. -/
structure MonthYear where
  month : ℕ
  year : ℕ
  deriving DecidableEq

/-- Modelled from the spec: `OsvAddressRecord` of `lib/osvfile.py` (not
under `src/`): `{account, address, population}`. -/
structure OsvAddressRecord where
  account : String
  address : String
  population : ℕ
  deriving DecidableEq

/-- Modelled from the spec: `OsvAccuralRecord` of `lib/osvfile.py` (not
under `src/`): the money amounts accrued for the period, per service. -/
structure OsvAccuralRecord where
  heating : ℚ
  gvs : ℚ
  deriving DecidableEq

/-- Modelled from the spec: `GvsDetailsRecord` of `lib/detailsfile.py`
(not under `src/`): one hot-water metering configuration event.
`counter_number` is mutable in the source — the row builders may
synthesize it. -/
structure GvsDetailsRecord where
  account : String
  counter_id : Option String
  counter_number : Option String
  metric_current : Option ℚ
  metric_date_current : Option String
  consumption_ipu : Option ℚ
  consumption_average : Option ℚ
  consumption_normative : Option ℚ
  people_registered : Option ℕ
  deriving DecidableEq

/-- Modelled from the spec: the account-ledger collaborator
(`AccountDetailsFileSingleton` of `lib/detailsfile.py`, not under `src/`).
`none` encodes the `NoServiceRow` failure, distinguishable from a
legitimate zero. -/
structure AccountDetails where
  payment : MonthYear → String → Option ℚ
  closingBalance : MonthYear → String → Option ℚ

/-- Modelled from the spec: an `AddressFile` roster
(`lib/addressfile.py`, not under `src/`) exposes, per year key, the list
of addresses of that sheet (`get_sheet_data_formatted`). -/
abbrev AddressFile := String → List String

/-- Modelled from the spec: `ExcelHelpers.address_in_list` of
`lib/helpers.py` (not under `src/`): the "address present" membership
test over a roster. -/
def address_in_list (address : String) (addresses : List String) : Bool :=
  addresses.contains address

/-- Modelled from the spec: `ReaccuralType` of `lib/reaccural.py` (not
under `src/`). The spec lists exactly three recognized kinds
(meter-based, average-based, normative-based); `OTHER` stands for any
unrecognized value reaching the defensive default arm of the `match`
statement in `GvsReaccuralResultRow.__init__`. -/
inductive ReaccuralType where
  | IPU
  | AVERAGE
  | NORMATIVE
  | OTHER
  deriving DecidableEq

/-- The `ResultRecordType` enum of `lib/resultfile.py`. -/
inductive ResultRecordType where
  | HEATING_ACCURAL
  | HEATING_REACCURAL
  | GVS_ACCURAL
  | GVS_REACCURAL
  deriving DecidableEq

/-- The `.name` attribute of a `ResultRecordType` member. -/
def ResultRecordType.name : ResultRecordType → String
  | .HEATING_ACCURAL => "HEATING_ACCURAL"
  | .HEATING_REACCURAL => "HEATING_REACCURAL"
  | .GVS_ACCURAL => "GVS_ACCURAL"
  | .GVS_REACCURAL => "GVS_REACCURAL"

/-- A scalar cell value of the report: every populated field of a row is
either a string or a number (all numeric amounts are modelled as
rationals). -/
inductive Value where
  | str : String → Value
  | num : ℚ → Value
  deriving DecidableEq

/-- A report row: a total assignment of an optional cell value to every
field index (the Python object carries attributes `f00` … `f46`). -/
abbrev Row := ℕ → Option Value

/-- `BaseResultRow.MAX_FIELDS`. -/
def BaseResultRow.MAX_FIELDS : ℕ := 47

/-- `BaseResultRow.set_field`. -/
def set_field (r : Row) (ind : ℕ) (value : Option Value) : Row :=
  fun j => if j = ind then value else r j

/-- `BaseResultRow.get_field` (attribute read by field number). -/
def get_field (r : Row) (ind : ℕ) : Option Value :=
  r ind

/-- The row state after the initialization loop of
`BaseResultRow.__init__` has defaulted every one of the 47 fields to
`None`, before any field is assigned. -/
def emptyRow : Row := fun _ => none

/-- `BaseResultRow.as_list`: the 47 field values, in field order. -/
def as_list (r : Row) : List (Option Value) :=
  (List.range BaseResultRow.MAX_FIELDS).map (fun ind => get_field r ind)

/-- Python truthiness of an optional string (`None` and `""` are falsy). -/
def struthy : Option String → Bool
  | none => false
  | some s => !(s == "")

/-- Python truthiness of an optional number (`None` and `0` are falsy). -/
def qtruthy : Option ℚ → Bool
  | none => false
  | some q => !(q == 0)

/-- Python string interpolation of an optional string (an f-string turns
`None` into `"None"`). -/
def pyStr : Option String → String
  | none => "None"
  | some s => s

/-- Round half to even to the nearest integer, the rounding used by
Python `%.4f` fixed-point formatting (applied after scaling). -/
def roundHalfEven (q : ℚ) : ℤ :=
  let n := ⌊q⌋
  let frac := q - (n : ℚ)
  if frac < 1 / 2 then n
  else if 1 / 2 < frac then n + 1
  else if n % 2 = 0 then n else n + 1

/-- The decimal digit character for `d` (`d` below ten). -/
def digitChar (d : ℕ) : Char := Char.ofNat (48 + d)

/-- Zero-padded four-digit decimal rendering of a number below `10000`. -/
def pad4 (n : ℕ) : String :=
  String.mk
    [digitChar (n / 1000 % 10), digitChar (n / 100 % 10),
     digitChar (n / 10 % 10), digitChar (n % 10)]

/-- Python `f"{x:.4f}"`: round half to even at four decimal places, then
render with exactly four fractional digits. -/
def format4 (q : ℚ) : String :=
  let n := roundHalfEven (q * 10000)
  let m := n.natAbs
  (if n < 0 then "-" else "") ++ Nat.repr (m / 10000) ++ "." ++ pad4 (m % 10000)

/-- The rational value displayed by `format4`: the argument rounded (half
to even) to four decimal places. -/
def round4 (q : ℚ) : ℚ := (roundHalfEven (q * 10000) : ℚ) / 10000

/-- Zero-padded two-digit decimal rendering (Python `f"{n:02d}"`). -/
def pad2 (n : ℕ) : String :=
  if n < 10 then "0" ++ Nat.repr n else Nat.repr n

/-- The payment-chapter date `f"20.{date.month:02d}.{date.year}"`. -/
def paymentDate (date : MonthYear) : String :=
  "20." ++ pad2 date.month ++ "." ++ Nat.repr date.year

/-- The process-wide `GvsIpuInstallDates` dictionary of
`lib/resultfile.py`, threaded explicitly: account → stored install date
(the stored value may itself be `None`, since the source can assign a
missing `metric_date_current`). -/
abbrev GvsIpuInstallDates := List (String × Option String)

/-- `GvsIpuInstallDates.get(key, "01.01.2019")`: the stored value when
the key is present (even when that stored value is `None`), otherwise the
default date. -/
def installDateGet (memo : GvsIpuInstallDates) (key : String) : Option String :=
  match memo.lookup key with
  | some v => v
  | none => some "01.01.2019"

/-- `GvsIpuInstallDates[key] = value`. -/
def installDateSet (memo : GvsIpuInstallDates) (key : String) (value : Option String) :
    GvsIpuInstallDates :=
  (key, value) :: memo

/-- `BaseResultRow.__init__`: default all 47 fields, then set report
month/year, account, address, the secondary month/year and the tariff
price (the price is obtained from the tariff collaborator by the caller
of this embedding and passed in). -/
def BaseResultRow (price : ℚ) (date : MonthYear) (data : OsvAddressRecord) : Row :=
  let r := emptyRow
  let r := set_field r 0 (some (.num date.month))
  let r := set_field r 1 (some (.num date.year))
  let r := set_field r 2 (some (.str data.account))
  let r := set_field r 3 (some (.str data.address))
  let r := set_field r 6 (some (.num date.month))
  let r := set_field r 7 (some (.num date.year))
  set_field r 8 (some (.num price))

/-- `GvsSingleResultRow._get_new_counter_number`. -/
def get_new_counter_number (seed : String) : String := seed ++ "_2"

/-- The in-place counter-number synthesis performed inside the
individual-meter branch of `GvsSingleResultRow.__init__` (and repeated in
`GvsReaccuralResultRow.__init__`): when the branch is taken and
`counter_number` is falsy, the record's `counter_number` is overwritten
with `_get_new_counter_number(counter_id)`. The source mutates the
record in place; this embedding returns the updated record. -/
def resolveCounterNumber (gvs : GvsDetailsRecord) : GvsDetailsRecord :=
  if struthy gvs.counter_id || struthy gvs.counter_number then
    if !struthy gvs.counter_number then
      { gvs with counter_number := some (get_new_counter_number (pyStr gvs.counter_id)) }
    else gvs
  else gvs

/-- `HeatingResultRow.__init__`. `none` models a `NoServiceRow` exception
escaping one of the two unguarded ledger lookups (heating performs no
`try`). -/
def HeatingResultRow (tariff : MonthYear → ℚ) (date : MonthYear) (data : OsvAddressRecord)
    (accural : OsvAccuralRecord) (odpu_file heating_average_file : AddressFile)
    (account_details : AccountDetails) : Option Row :=
  let price := tariff date
  let r := BaseResultRow price date data
  let r := set_field r 4 (some (.str (ResultRecordType.name .HEATING_ACCURAL)))
  let r := set_field r 5 (some (.str "Отопление"))
  let odpus := odpu_file (Nat.repr date.year)
  let has_odpu := address_in_list data.address odpus
  let r :=
    if has_odpu then
      let r := set_field r 9 (some (.str "Общедомовый"))
      let r := set_field r 10 (some (.str "01.01.2018"))
      let r := set_field r 11 (some (.str "Подвал"))
      let r := set_field r 12 (some (.num 1))
      let r := set_field r 13 (some (.str "ВКТ-5"))
      let r := set_field r 14 (some (.num 1))
      let r := set_field r 15 (some (.num 6))
      set_field r 16 (some (.num 3))
    else r
  let heating_averages := heating_average_file (Nat.repr date.year)
  let has_heating_average := address_in_list data.address heating_averages
  let quantity := format4 (accural.heating / price)
  let r :=
    if has_odpu && has_heating_average then
      set_field (set_field (set_field r
        26 (some (.str quantity)))
        27 (some (.num accural.heating)))
        28 (some (.num accural.heating))
    else
      set_field (set_field (set_field (set_field r
        30 (some (.num data.population)))
        31 (some (.str quantity)))
        32 (some (.num accural.heating)))
        33 (some (.num accural.heating))
  let r := set_field (set_field (set_field r
    35 (some (.str quantity)))
    36 (some (.num accural.heating)))
    37 (some (.num accural.heating))
  match account_details.payment date "Отопление" with
  | none => none
  | some payment_sum =>
    let r :=
      if payment_sum ≠ 0 then
        set_field (set_field (set_field (set_field r
          40 (some (.str (paymentDate date))))
          41 (some (.str (paymentDate date))))
          42 (some (.num payment_sum)))
          43 (some (.str (if payment_sum ≠ 0 then "Оплата" else "Возврат оплаты")))
      else r
    match account_details.closingBalance date "Отопление" with
    | none => none
    | some closing_balance => some (set_field r 45 (some (.num closing_balance)))

/-- `GvsSingleResultRow.__init__`. Returns the row together with the
(possibly mutated) metering record. The `try … except NoServiceRow`
blocks of the source make construction total: a missing ledger row is
replaced by zero. -/
def GvsSingleResultRow (tariff : MonthYear → ℚ) (date : MonthYear) (data : OsvAddressRecord)
    (accural : OsvAccuralRecord) (account_details : AccountDetails)
    (gvs_details_row : GvsDetailsRecord) (memo : GvsIpuInstallDates) :
    Row × GvsDetailsRecord :=
  let price := tariff date
  let gvs := resolveCounterNumber gvs_details_row
  let r := BaseResultRow price date data
  let r := set_field r 4 (some (.str (ResultRecordType.name .GVS_ACCURAL)))
  let r := set_field r 5 (some (.str "Тепловая энергия ГВС"))
  let r :=
    if struthy gvs_details_row.counter_id || struthy gvs_details_row.counter_number then
      let r := set_field r 9 (some (.str "Индивидуальный"))
      let r := set_field r 10 ((installDateGet memo data.account).map .str)
      let r := set_field r 13 (some (.str "СГВ-15"))
      let r := set_field r 14 (gvs.counter_number.map .str)
      let r := set_field r 15 (some (.num 6))
      let r := set_field r 16 (some (.num 3))
      let r :=
        if gvs.metric_current.isSome then
          let r := set_field r 19 (gvs.metric_date_current.map .str)
          let r := set_field r 20 (some (.str "От абонента (прочие)"))
          set_field r 21 (gvs.metric_current.map .num)
        else r
      set_field r 22 (gvs.consumption_ipu.map .num)
    else r
  let quantity := format4 (accural.gvs / price)
  let r :=
    if qtruthy gvs.consumption_ipu then
      set_field (set_field (set_field r
        23 (some (.str quantity)))
        24 (some (.num accural.gvs)))
        25 (some (.num accural.gvs))
    else r
  let r :=
    if qtruthy gvs.consumption_average then
      set_field (set_field (set_field r
        26 (some (.str quantity)))
        27 (some (.num accural.gvs)))
        28 (some (.num accural.gvs))
    else r
  let r :=
    if qtruthy gvs.consumption_normative then
      set_field (set_field (set_field (set_field r
        30 (gvs.people_registered.map fun n => .num n))
        31 (some (.str quantity)))
        32 (some (.num accural.gvs)))
        33 (some (.num accural.gvs))
    else r
  let r := set_field (set_field (set_field r
    35 (some (.str quantity)))
    36 (some (.num accural.gvs)))
    37 (some (.num accural.gvs))
  let payment_sum := (account_details.payment date "Тепловая энергия для подогрева воды").getD 0
  let r :=
    if payment_sum ≠ 0 then
      set_field (set_field (set_field (set_field r
        40 (some (.str (paymentDate date))))
        41 (some (.str (paymentDate date))))
        42 (some (.num payment_sum)))
        43 (some (.str (if payment_sum ≠ 0 then "Оплата" else "Возврат оплаты")))
    else r
  let closing_balance :=
    (account_details.closingBalance date "Тепловая энергия для подогрева воды").getD 0
  (set_field r 45 (some (.num closing_balance)), gvs)

/-- `GvsMultipleResultFirstRow.__init__`: the parent construction, then
the reading-source label is overridden when a current reading exists. -/
def GvsMultipleResultFirstRow (tariff : MonthYear → ℚ) (date : MonthYear)
    (data : OsvAddressRecord) (accural : OsvAccuralRecord)
    (account_details : AccountDetails) (gvs_details_row : GvsDetailsRecord)
    (memo : GvsIpuInstallDates) : Row × GvsDetailsRecord :=
  let s := GvsSingleResultRow tariff date data accural account_details gvs_details_row memo
  let gvs := s.2
  let r :=
    if gvs.metric_current.isSome then set_field s.1 20 (some (.str "При снятии прибора"))
    else s.1
  (r, gvs)

/-- The trailing loop of `GvsMultipleResultSecondRow.__init__`:
`for i in range(23, 46): self.set_field(i)` — clear `count` consecutive
fields starting at `lo`. -/
def clearFrom (r : Row) (lo : ℕ) : ℕ → Row
  | 0 => r
  | n + 1 => clearFrom (set_field r lo none) (lo + 1) n

/-- `GvsMultipleResultSecondRow.__init__`: the parent construction, then
the install date is overwritten with the new reading date, the memo is
updated, the reading-source label is overridden, and fields 23 through 45
are cleared. Returns row, mutated record and updated memo. -/
def GvsMultipleResultSecondRow (tariff : MonthYear → ℚ) (date : MonthYear)
    (data : OsvAddressRecord) (accural : OsvAccuralRecord)
    (account_details : AccountDetails) (gvs_details_row : GvsDetailsRecord)
    (memo : GvsIpuInstallDates) : Row × GvsDetailsRecord × GvsIpuInstallDates :=
  let s := GvsSingleResultRow tariff date data accural account_details gvs_details_row memo
  let gvs := s.2
  let r := set_field s.1 10 (gvs.metric_date_current.map .str)
  let memo2 := installDateSet memo gvs.account gvs.metric_date_current
  let r :=
    if gvs.metric_current.isSome then set_field r 20 (some (.str "При установке"))
    else r
  let r := clearFrom r 23 23
  (r, gvs, memo2)

/-- `GvsReaccuralResultRow.__init__`. The row component is `none` when
the `match` on the reaccural kind falls to the defensive `case _` that
raises `ValueError` (the metering record's mutation has already happened
at that point, so the record is returned in either case). -/
def GvsReaccuralResultRow (tariff : MonthYear → ℚ) (date : MonthYear)
    (data : OsvAddressRecord) (gvs_details_row : GvsDetailsRecord)
    (reaccural_date : MonthYear) (reaccural_sum : ℚ) (reaccural_type : ReaccuralType)
    (memo : GvsIpuInstallDates) : Option Row × GvsDetailsRecord :=
  let price := tariff date
  let gvs := resolveCounterNumber gvs_details_row
  let r := BaseResultRow price date data
  let r := set_field r 4 (some (.str (ResultRecordType.name .GVS_REACCURAL)))
  let r := set_field r 5 (some (.str "Тепловая энергия ГВС"))
  let r := set_field r 6 (some (.num reaccural_date.month))
  let r := set_field r 7 (some (.num reaccural_date.year))
  let r := set_field r 8 (some (.num price))
  let r :=
    if struthy gvs_details_row.counter_id || struthy gvs_details_row.counter_number then
      let r := set_field r 9 (some (.str "Индивидуальный"))
      let r := set_field r 10 ((installDateGet memo data.account).map .str)
      let r := set_field r 13 (some (.str "СГВ-15"))
      let r := set_field r 14 (gvs.counter_number.map .str)
      let r := set_field r 15 (some (.num 6))
      set_field r 16 (some (.num 3))
    else r
  let quantity := format4 (reaccural_sum / price)
  let chapter : Option Row :=
    match reaccural_type with
    | .IPU =>
      some (set_field (set_field (set_field r
        23 (some (.str quantity)))
        24 (some (.num reaccural_sum)))
        25 (some (.num reaccural_sum)))
    | .AVERAGE =>
      some (set_field (set_field (set_field r
        26 (some (.str quantity)))
        27 (some (.num reaccural_sum)))
        28 (some (.num reaccural_sum)))
    | .NORMATIVE =>
      some (set_field (set_field (set_field r
        31 (some (.str quantity)))
        32 (some (.num reaccural_sum)))
        33 (some (.num reaccural_sum)))
    | .OTHER => none
  match chapter with
  | none => (none, gvs)
  | some r =>
    (some (set_field (set_field (set_field r
      35 (some (.str quantity)))
      36 (some (.num reaccural_sum)))
      37 (some (.num reaccural_sum))), gvs)

/-! ### Field-access lemmas -/

@[simp]
theorem get_set_field (r : Row) (ind j : ℕ) (v : Option Value) :
    get_field (set_field r ind v) j = if j = ind then v else get_field r j := rfl

@[simp]
theorem get_field_ite (c : Prop) [Decidable c] (a b : Row) (j : ℕ) :
    get_field (if c then a else b) j = if c then get_field a j else get_field b j := by
  split <;> rfl

@[simp]
theorem get_field_emptyRow (j : ℕ) : get_field emptyRow j = none := rfl

theorem get_clearFrom_lt (n : ℕ) :
    ∀ (r : Row) (lo i : ℕ), i < lo → get_field (clearFrom r lo n) i = get_field r i := by
  induction n with
  | zero => intro r lo i _; rfl
  | succ n ih =>
    intro r lo i h
    show get_field (clearFrom (set_field r lo none) (lo + 1) n) i = _
    rw [ih _ _ _ (by omega), get_set_field, if_neg (by omega)]

theorem get_clearFrom_mem (n : ℕ) :
    ∀ (r : Row) (lo i : ℕ), lo ≤ i → i < lo + n → get_field (clearFrom r lo n) i = none := by
  induction n with
  | zero => intro r lo i h1 h2; omega
  | succ n ih =>
    intro r lo i h1 h2
    show get_field (clearFrom (set_field r lo none) (lo + 1) n) i = none
    by_cases hi : i = lo
    · subst hi
      rw [get_clearFrom_lt _ _ _ _ (by omega), get_set_field, if_pos rfl]
    · exact ih _ _ _ (by omega) (by omega)

/-! ### Record-preservation lemmas for the counter-number synthesis -/

@[simp]
theorem resolveCounterNumber_account (gvs : GvsDetailsRecord) :
    (resolveCounterNumber gvs).account = gvs.account := by
  unfold resolveCounterNumber; split_ifs <;> rfl

@[simp]
theorem resolveCounterNumber_counter_id (gvs : GvsDetailsRecord) :
    (resolveCounterNumber gvs).counter_id = gvs.counter_id := by
  unfold resolveCounterNumber; split_ifs <;> rfl

@[simp]
theorem resolveCounterNumber_metric_current (gvs : GvsDetailsRecord) :
    (resolveCounterNumber gvs).metric_current = gvs.metric_current := by
  unfold resolveCounterNumber; split_ifs <;> rfl

@[simp]
theorem resolveCounterNumber_metric_date_current (gvs : GvsDetailsRecord) :
    (resolveCounterNumber gvs).metric_date_current = gvs.metric_date_current := by
  unfold resolveCounterNumber; split_ifs <;> rfl

@[simp]
theorem resolveCounterNumber_consumption_ipu (gvs : GvsDetailsRecord) :
    (resolveCounterNumber gvs).consumption_ipu = gvs.consumption_ipu := by
  unfold resolveCounterNumber; split_ifs <;> rfl

@[simp]
theorem resolveCounterNumber_consumption_average (gvs : GvsDetailsRecord) :
    (resolveCounterNumber gvs).consumption_average = gvs.consumption_average := by
  unfold resolveCounterNumber; split_ifs <;> rfl

@[simp]
theorem resolveCounterNumber_consumption_normative (gvs : GvsDetailsRecord) :
    (resolveCounterNumber gvs).consumption_normative = gvs.consumption_normative := by
  unfold resolveCounterNumber; split_ifs <;> rfl

@[simp]
theorem resolveCounterNumber_people_registered (gvs : GvsDetailsRecord) :
    (resolveCounterNumber gvs).people_registered = gvs.people_registered := by
  unfold resolveCounterNumber; split_ifs <;> rfl

@[simp]
theorem GvsSingleResultRow_snd (tariff : MonthYear → ℚ) (date : MonthYear)
    (data : OsvAddressRecord) (accural : OsvAccuralRecord)
    (account_details : AccountDetails) (gvs : GvsDetailsRecord)
    (memo : GvsIpuInstallDates) :
    (GvsSingleResultRow tariff date data accural account_details gvs memo).2 =
    resolveCounterNumber gvs := rfl

@[simp]
theorem GvsMultipleResultSecondRow_record (tariff : MonthYear → ℚ) (date : MonthYear)
    (data : OsvAddressRecord) (accural : OsvAccuralRecord)
    (account_details : AccountDetails) (gvs : GvsDetailsRecord)
    (memo : GvsIpuInstallDates) :
    (GvsMultipleResultSecondRow tariff date data accural account_details gvs memo).2.1 =
      resolveCounterNumber gvs := rfl

@[simp]
theorem GvsMultipleResultSecondRow_memo (tariff : MonthYear → ℚ) (date : MonthYear)
    (data : OsvAddressRecord) (accural : OsvAccuralRecord)
    (account_details : AccountDetails) (gvs : GvsDetailsRecord)
    (memo : GvsIpuInstallDates) :
    (GvsMultipleResultSecondRow tariff date data accural account_details gvs memo).2.2 =
      installDateSet memo (resolveCounterNumber gvs).account
        (resolveCounterNumber gvs).metric_date_current := rfl

theorem GvsReaccuralResultRow_snd (tariff : MonthYear → ℚ) (date : MonthYear)
    (data : OsvAddressRecord) (gvs : GvsDetailsRecord) (reaccural_date : MonthYear)
    (reaccural_sum : ℚ) (reaccural_type : ReaccuralType) (memo : GvsIpuInstallDates) :
    (GvsReaccuralResultRow tariff date data gvs reaccural_date reaccural_sum
      reaccural_type memo).2 = resolveCounterNumber gvs := by
  cases reaccural_type <;> rfl

/-! ### Formatting lemmas -/

theorem roundHalfEven_intCast (z : ℤ) : roundHalfEven (z : ℚ) = z := by
  unfold roundHalfEven
  rw [Int.floor_intCast]
  simp only [sub_self]
  norm_num

theorem format4_round4 (q : ℚ) : format4 (round4 q) = format4 q := by
  unfold format4 round4
  rw [div_mul_cancel₀ _ (by norm_num : (10000 : ℚ) ≠ 0), roundHalfEven_intCast]

theorem digitChar_isDigit (d : ℕ) (h : d < 10) : (digitChar d).isDigit = true := by
  interval_cases d <;> decide

theorem pad4_length (n : ℕ) : (pad4 n).length = 4 := rfl

theorem pad4_digits (n : ℕ) : ∀ c ∈ (pad4 n).data, c.isDigit = true := by
  intro c hc
  simp only [pad4, String.data, List.mem_cons, List.not_mem_nil, or_false] at hc
  rcases hc with h | h | h | h <;> subst h <;>
    exact digitChar_isDigit _ (Nat.mod_lt _ (by norm_num))

theorem format4_shape (q : ℚ) :
    ∃ a b, format4 q = a ++ "." ++ b ∧ b.length = 4 ∧ ∀ c ∈ b.data, c.isDigit = true := by
  refine ⟨(if roundHalfEven (q * 10000) < 0 then "-" else "") ++
      Nat.repr ((roundHalfEven (q * 10000)).natAbs / 10000),
    pad4 ((roundHalfEven (q * 10000)).natAbs % 10000), rfl, rfl, pad4_digits _⟩

/-! ### Chapter-population predicates -/

/-- The meter-based consumption chapter (fields 23-25) is populated. -/
def ipuChapter (r : Row) : Prop :=
  (get_field r 23).isSome ∧ (get_field r 24).isSome ∧ (get_field r 25).isSome

/-- The average-based consumption chapter (fields 26-28) is populated. -/
def avgChapter (r : Row) : Prop :=
  (get_field r 26).isSome ∧ (get_field r 27).isSome ∧ (get_field r 28).isSome

/-- The normative chapter as populated by the heating and GVS-single
builders (fields 30-33, registered population included). -/
def normChapter (r : Row) : Prop :=
  (get_field r 30).isSome ∧ (get_field r 31).isSome ∧
  (get_field r 32).isSome ∧ (get_field r 33).isSome

/-- The normative quantity/sum triple alone (fields 31-33). -/
def normQtyChapter (r : Row) : Prop :=
  (get_field r 31).isSome ∧ (get_field r 32).isSome ∧ (get_field r 33).isSome

/-! ### Concrete fixtures, used by witnesses and counterexamples -/

def tTariff : MonthYear → ℚ := fun _ => 50

def tDate : MonthYear := ⟨5, 2023⟩

def tRDate : MonthYear := ⟨2, 2023⟩

def tData : OsvAddressRecord := ⟨"101", "Addr 1", 3⟩

def tAccural : OsvAccuralRecord := ⟨200, 150⟩

def tGvs : GvsDetailsRecord :=
  ⟨"101", some "X9", none, some 12, some "15.05.2023", some 3, none, none, some 2⟩

def tGvsNoDate : GvsDetailsRecord :=
  ⟨"101", some "X9", none, none, none, some 3, none, none, some 2⟩

def tLedger : AccountDetails := ⟨fun _ _ => some 70, fun _ _ => some 5⟩

def tLedgerNeg : AccountDetails := ⟨fun _ _ => some (-5), fun _ _ => some 5⟩

def tLedgerNone : AccountDetails := ⟨fun _ _ => none, fun _ _ => none⟩

def tMemo : GvsIpuInstallDates := []

def tRoster : AddressFile := fun _ => ["Addr 1"]

def tEmptyRoster : AddressFile := fun _ => []

/-- Claim C4: when the account ledger reports no matching service row for
("Тепловая энергия для подогрева воды", period), no exception escapes the
GVS single-row construction (the builder is a total function in this
embedding, mirroring the `try … except NoServiceRow` blocks): the payment
sum is treated as zero, so the payment chapter (fields 40-43) stays
empty, and the closing balance (field 45) defaults to zero. -/
theorem gvs_single_no_service_row_tolerated (tariff : MonthYear → ℚ) (date : MonthYear)
    (data : OsvAddressRecord) (accural : OsvAccuralRecord)
    (account_details : AccountDetails) (gvs : GvsDetailsRecord) (memo : GvsIpuInstallDates)
    (hp : account_details.payment date "Тепловая энергия для подогрева воды" = none)
    (hb : account_details.closingBalance date "Тепловая энергия для подогрева воды" = none) :
    get_field (GvsSingleResultRow tariff date data accural account_details gvs memo).1 40
      = none ∧
    get_field (GvsSingleResultRow tariff date data accural account_details gvs memo).1 41
      = none ∧
    get_field (GvsSingleResultRow tariff date data accural account_details gvs memo).1 42
      = none ∧
    get_field (GvsSingleResultRow tariff date data accural account_details gvs memo).1 43
      = none ∧
    get_field (GvsSingleResultRow tariff date data accural account_details gvs memo).1 45
      = some (.num 0) := by
  simp [GvsSingleResultRow, BaseResultRow, hp, hb]

theorem gvs_single_no_service_row_tolerated_witness :
    get_field (GvsSingleResultRow tTariff tDate tData tAccural tLedgerNone tGvs tMemo).1 40
      = none ∧
    get_field (GvsSingleResultRow tTariff tDate tData tAccural tLedgerNone tGvs tMemo).1 41
      = none ∧
    get_field (GvsSingleResultRow tTariff tDate tData tAccural tLedgerNone tGvs tMemo).1 42
      = none ∧
    get_field (GvsSingleResultRow tTariff tDate tData tAccural tLedgerNone tGvs tMemo).1 43
      = none ∧
    get_field (GvsSingleResultRow tTariff tDate tData tAccural tLedgerNone tGvs tMemo).1 45
      = some (.num 0) :=
  gvs_single_no_service_row_tolerated tTariff tDate tData tAccural tLedgerNone tGvs tMemo
    rfl rfl

/-- Claim C2: after constructing a split-metering opening row
(`GvsMultipleResultSecondRow`), field 10 equals the new metering fact's
current-reading date, the install-date memo entry for the fact's account
holds that same reading date (visible to later builders), and every field
from 23 through 45 inclusive is empty. -/
theorem gvs_second_row_f10_memo_cleared (tariff : MonthYear → ℚ) (date : MonthYear)
    (data : OsvAddressRecord) (accural : OsvAccuralRecord)
    (account_details : AccountDetails) (gvs : GvsDetailsRecord)
    (memo : GvsIpuInstallDates) :
    get_field
      (GvsMultipleResultSecondRow tariff date data accural account_details gvs memo).1 10
      = gvs.metric_date_current.map Value.str ∧
    (GvsMultipleResultSecondRow tariff date data accural account_details gvs memo).2.2.lookup
      gvs.account = some gvs.metric_date_current ∧
    ∀ i, 23 ≤ i → i ≤ 45 →
      get_field
        (GvsMultipleResultSecondRow tariff date data accural account_details gvs memo).1 i
        = none := by
  refine ⟨?_, ?_, ?_⟩
  · show get_field (clearFrom _ 23 23) 10 = _
    rw [get_clearFrom_lt _ _ _ _ (by omega)]
    simp
  · show (installDateSet memo (resolveCounterNumber gvs).account
      (resolveCounterNumber gvs).metric_date_current).lookup gvs.account = _
    simp [installDateSet]
  · intro i h1 h2
    exact get_clearFrom_mem _ _ _ _ h1 (by omega)

theorem gvs_second_row_f10_memo_cleared_witness :
    get_field (GvsMultipleResultSecondRow tTariff tDate tData tAccural tLedger tGvs tMemo).1 35
      = none :=
  (gvs_second_row_f10_memo_cleared tTariff tDate tData tAccural tLedger tGvs tMemo).2.2
    35 (by omega) (by omega)

/-- Claim C3: in a heating accrual row the average chapter (fields 26-28)
is populated exactly when the address is in the area-meter (ODPU) roster
for the period's year and in the averages roster for that year; otherwise
the normative chapter (fields 30-33, registered population included) is
populated; the two chapters are never both populated. -/
theorem heating_average_iff (tariff : MonthYear → ℚ) (date : MonthYear)
    (data : OsvAddressRecord) (accural : OsvAccuralRecord)
    (odpu_file heating_average_file : AddressFile) (account_details : AccountDetails)
    (p cb : ℚ)
    (hp : account_details.payment date "Отопление" = some p)
    (hb : account_details.closingBalance date "Отопление" = some cb) :
    ∃ r, HeatingResultRow tariff date data accural odpu_file heating_average_file
        account_details = some r ∧
      (avgChapter r ↔
        (address_in_list data.address (odpu_file (Nat.repr date.year)) = true ∧
         address_in_list data.address (heating_average_file (Nat.repr date.year)) = true)) ∧
      (¬(address_in_list data.address (odpu_file (Nat.repr date.year)) = true ∧
         address_in_list data.address (heating_average_file (Nat.repr date.year)) = true) →
        normChapter r) ∧
      ¬(avgChapter r ∧ normChapter r) := by
  unfold HeatingResultRow
  rw [hp, hb]
  refine ⟨_, rfl, ?_, ?_, ?_⟩ <;>
    by_cases ho : address_in_list data.address (odpu_file (Nat.repr date.year)) = true <;>
    by_cases ha : address_in_list data.address
      (heating_average_file (Nat.repr date.year)) = true <;>
    simp [avgChapter, normChapter, BaseResultRow, ho, ha]

theorem heating_average_iff_witness :
    ∃ r, HeatingResultRow tTariff tDate tData tAccural tRoster tRoster tLedger = some r ∧
      (avgChapter r ↔
        (address_in_list tData.address (tRoster (Nat.repr tDate.year)) = true ∧
         address_in_list tData.address (tRoster (Nat.repr tDate.year)) = true)) ∧
      (¬(address_in_list tData.address (tRoster (Nat.repr tDate.year)) = true ∧
         address_in_list tData.address (tRoster (Nat.repr tDate.year)) = true) →
        normChapter r) ∧
      ¬(avgChapter r ∧ normChapter r) :=
  heating_average_iff tTariff tDate tData tAccural tRoster tRoster tLedger 70 5 rfl rfl

/-- Claim C8 (amended): in a heating accrual row, a nonzero ledger
payment sum populates the payment chapter (fields 40-43) with two
identical day-20 dates, the payment sum, and the label "Оплата" for every
nonzero sum (the source tests only truthiness, so negative sums are also
labelled "Оплата"); a zero sum leaves the chapter empty. -/
theorem heating_payment_chapter (tariff : MonthYear → ℚ) (date : MonthYear)
    (data : OsvAddressRecord) (accural : OsvAccuralRecord)
    (odpu_file heating_average_file : AddressFile) (account_details : AccountDetails)
    (p cb : ℚ)
    (hp : account_details.payment date "Отопление" = some p)
    (hb : account_details.closingBalance date "Отопление" = some cb) :
    ∃ r, HeatingResultRow tariff date data accural odpu_file heating_average_file
        account_details = some r ∧
      (p ≠ 0 →
        get_field r 40 = some (.str (paymentDate date)) ∧
        get_field r 41 = some (.str (paymentDate date)) ∧
        get_field r 42 = some (.num p) ∧
        get_field r 43 = some (.str "Оплата")) ∧
      (p = 0 →
        get_field r 40 = none ∧ get_field r 41 = none ∧
        get_field r 42 = none ∧ get_field r 43 = none) := by
  unfold HeatingResultRow
  rw [hp, hb]
  refine ⟨_, rfl, fun hne => ?_, fun h0 => ?_⟩
  · simp [BaseResultRow, hne]
  · simp [BaseResultRow, h0]

theorem heating_payment_chapter_witness :
    ∃ r, HeatingResultRow tTariff tDate tData tAccural tRoster tRoster tLedgerNeg = some r ∧
      ((-5 : ℚ) ≠ 0 →
        get_field r 40 = some (.str (paymentDate tDate)) ∧
        get_field r 41 = some (.str (paymentDate tDate)) ∧
        get_field r 42 = some (.num (-5)) ∧
        get_field r 43 = some (.str "Оплата")) ∧
      ((-5 : ℚ) = 0 →
        get_field r 40 = none ∧ get_field r 41 = none ∧
        get_field r 42 = none ∧ get_field r 43 = none) :=
  heating_payment_chapter tTariff tDate tData tAccural tRoster tRoster tLedgerNeg
    (-5) 5 rfl rfl

/-- Claim C8 counterexample: with a negative (hence nonzero, non-positive)
ledger payment sum of `-5`, the heating row is built and its field 43
reads "Оплата", not the "Возврат оплаты" the claim requires for
non-positive sums. -/
theorem heating_payment_label_counterexample :
    (HeatingResultRow tTariff tDate tData tAccural tRoster tRoster tLedgerNeg).isSome
      = true ∧
    get_field ((HeatingResultRow tTariff tDate tData tAccural tRoster tRoster
      tLedgerNeg).getD emptyRow) 43 = some (.str "Оплата") ∧
    get_field ((HeatingResultRow tTariff tDate tData tAccural tRoster tRoster
      tLedgerNeg).getD emptyRow) 43 ≠ some (.str "Возврат оплаты") := by
  refine ⟨by decide, by decide, by decide⟩

/-- Claim C5 (amended): every successfully built heating, GVS-single,
GVS-split-first and GVS-reaccrual row has the consolidated chapter
(fields 35-37) populated, the amount in fields 36 and 37 being the
accrual (or reaccrual) amount whose quotient by the price is the quantity
in field 35; the split-opening row is the exception — its trailing
clearing loop empties fields 35-37 together with the rest of 23-45. -/
theorem consolidated_chapter_populated (tariff : MonthYear → ℚ) (date : MonthYear)
    (data : OsvAddressRecord) (accural : OsvAccuralRecord)
    (odpu_file heating_average_file : AddressFile) (account_details : AccountDetails)
    (p cb : ℚ) (gvs : GvsDetailsRecord) (memo : GvsIpuInstallDates)
    (rdate : MonthYear) (rsum : ℚ) (k : ReaccuralType)
    (hp : account_details.payment date "Отопление" = some p)
    (hb : account_details.closingBalance date "Отопление" = some cb) :
    (∃ r, HeatingResultRow tariff date data accural odpu_file heating_average_file
        account_details = some r ∧
      get_field r 35 = some (.str (format4 (accural.heating / tariff date))) ∧
      get_field r 36 = some (.num accural.heating) ∧
      get_field r 37 = some (.num accural.heating)) ∧
    (get_field (GvsSingleResultRow tariff date data accural account_details gvs memo).1 35
        = some (.str (format4 (accural.gvs / tariff date))) ∧
      get_field (GvsSingleResultRow tariff date data accural account_details gvs memo).1 36
        = some (.num accural.gvs) ∧
      get_field (GvsSingleResultRow tariff date data accural account_details gvs memo).1 37
        = some (.num accural.gvs)) ∧
    (get_field
        (GvsMultipleResultFirstRow tariff date data accural account_details gvs memo).1 35
        = some (.str (format4 (accural.gvs / tariff date))) ∧
      get_field
        (GvsMultipleResultFirstRow tariff date data accural account_details gvs memo).1 36
        = some (.num accural.gvs) ∧
      get_field
        (GvsMultipleResultFirstRow tariff date data accural account_details gvs memo).1 37
        = some (.num accural.gvs)) ∧
    (∀ r, (GvsReaccuralResultRow tariff date data gvs rdate rsum k memo).1 = some r →
      get_field r 35 = some (.str (format4 (rsum / tariff date))) ∧
      get_field r 36 = some (.num rsum) ∧
      get_field r 37 = some (.num rsum)) ∧
    (get_field
        (GvsMultipleResultSecondRow tariff date data accural account_details gvs memo).1 35
        = none ∧
      get_field
        (GvsMultipleResultSecondRow tariff date data accural account_details gvs memo).1 36
        = none ∧
      get_field
        (GvsMultipleResultSecondRow tariff date data accural account_details gvs memo).1 37
        = none) := by
  refine ⟨?_, ?_, ?_, ?_, ?_, ?_, ?_⟩
  · unfold HeatingResultRow
    rw [hp, hb]
    refine ⟨_, rfl, ?_, ?_, ?_⟩ <;> simp [BaseResultRow]
  · simp [GvsSingleResultRow, BaseResultRow]
  · simp [GvsMultipleResultFirstRow, GvsSingleResultRow, BaseResultRow]
  · intro r h
    cases k with
    | OTHER => simp [GvsReaccuralResultRow] at h
    | IPU =>
      simp only [GvsReaccuralResultRow, Option.some.injEq] at h
      subst h
      simp [BaseResultRow]
    | AVERAGE =>
      simp only [GvsReaccuralResultRow, Option.some.injEq] at h
      subst h
      simp [BaseResultRow]
    | NORMATIVE =>
      simp only [GvsReaccuralResultRow, Option.some.injEq] at h
      subst h
      simp [BaseResultRow]
  · exact get_clearFrom_mem 23 _ 23 35 (by omega) (by omega)
  · exact get_clearFrom_mem 23 _ 23 36 (by omega) (by omega)
  · exact get_clearFrom_mem 23 _ 23 37 (by omega) (by omega)

theorem consolidated_chapter_populated_witness :
    ∃ r, HeatingResultRow tTariff tDate tData tAccural tRoster tRoster tLedger = some r ∧
      get_field r 35 = some (.str (format4 (tAccural.heating / tTariff tDate))) ∧
      get_field r 36 = some (.num tAccural.heating) ∧
      get_field r 37 = some (.num tAccural.heating) :=
  (consolidated_chapter_populated tTariff tDate tData tAccural tRoster tRoster tLedger
    70 5 tGvs tMemo tRDate 100 .IPU rfl rfl).1

/-- Claim C5 counterexample: the split-opening row
(`GvsMultipleResultSecondRow`) is successfully built, yet its consolidated
chapter fields 35-37 are all empty, because the trailing loop clears
fields 23 through 45. -/
theorem consolidated_second_row_counterexample :
    get_field (GvsMultipleResultSecondRow tTariff tDate tData tAccural tLedger tGvs tMemo).1
      35 = none ∧
    get_field (GvsMultipleResultSecondRow tTariff tDate tData tAccural tLedger tGvs tMemo).1
      36 = none ∧
    get_field (GvsMultipleResultSecondRow tTariff tDate tData tAccural tLedger tGvs tMemo).1
      37 = none := by
  refine ⟨by decide, by decide, by decide⟩

/-- Claim C1 (amended): a GVS reaccrual row populates exactly one of the
three consumption chapters, matching the recognized kind — meter-based
fills 23-25, average-based fills 26-28, normative-based fills 31-33 only,
leaving the registered-population field 30 empty; every unrecognized kind
makes the constructor fail, producing no row. -/
theorem reaccural_exactly_one_chapter (tariff : MonthYear → ℚ) (date : MonthYear)
    (data : OsvAddressRecord) (gvs : GvsDetailsRecord) (rdate : MonthYear) (rsum : ℚ)
    (memo : GvsIpuInstallDates) :
    (∀ k : ReaccuralType, k ≠ .OTHER →
      ∃ r, (GvsReaccuralResultRow tariff date data gvs rdate rsum k memo).1 = some r ∧
        (ipuChapter r ↔ k = .IPU) ∧
        (avgChapter r ↔ k = .AVERAGE) ∧
        (normQtyChapter r ↔ k = .NORMATIVE) ∧
        get_field r 30 = none) ∧
    (GvsReaccuralResultRow tariff date data gvs rdate rsum .OTHER memo).1 = none := by
  constructor
  · intro k hk
    cases k with
    | OTHER => exact absurd rfl hk
    | IPU =>
      refine ⟨_, rfl, ?_, ?_, ?_, ?_⟩ <;>
        simp [GvsReaccuralResultRow, ipuChapter, avgChapter, normQtyChapter, BaseResultRow]
    | AVERAGE =>
      refine ⟨_, rfl, ?_, ?_, ?_, ?_⟩ <;>
        simp [GvsReaccuralResultRow, ipuChapter, avgChapter, normQtyChapter, BaseResultRow]
    | NORMATIVE =>
      refine ⟨_, rfl, ?_, ?_, ?_, ?_⟩ <;>
        simp [GvsReaccuralResultRow, ipuChapter, avgChapter, normQtyChapter, BaseResultRow]
  · rfl

theorem reaccural_exactly_one_chapter_witness :
    ∃ r, (GvsReaccuralResultRow tTariff tDate tData tGvs tRDate 100 .NORMATIVE tMemo).1
        = some r ∧
      (ipuChapter r ↔ ReaccuralType.NORMATIVE = .IPU) ∧
      (avgChapter r ↔ ReaccuralType.NORMATIVE = .AVERAGE) ∧
      (normQtyChapter r ↔ ReaccuralType.NORMATIVE = .NORMATIVE) ∧
      get_field r 30 = none :=
  (reaccural_exactly_one_chapter tTariff tDate tData tGvs tRDate 100 tMemo).1
    .NORMATIVE (by decide)

/-- Claim C1 counterexample: a normative-kind reaccrual row is built with
its normative quantity field 31 populated, yet the registered-population
field 30 is empty — `GvsReaccuralResultRow.__init__` never assigns field
30, contradicting the claim that the normative chapter is filled together
with the registered-population count. -/
theorem reaccural_normative_f30_counterexample :
    ((GvsReaccuralResultRow tTariff tDate tData tGvs tRDate 100 .NORMATIVE tMemo).1).isSome
      = true ∧
    (get_field ((GvsReaccuralResultRow tTariff tDate tData tGvs tRDate 100 .NORMATIVE
      tMemo).1.getD emptyRow) 31).isSome = true ∧
    get_field ((GvsReaccuralResultRow tTariff tDate tData tGvs tRDate 100 .NORMATIVE
      tMemo).1.getD emptyRow) 30 = none := by
  refine ⟨by decide, by decide, by decide⟩

/-- Claim C6: for every positive price, every row builder computes one
quantity string — the amount divided by the price, rounded half-to-even
at four decimal places and rendered with exactly four fractional digits —
and reuses that very string in every quantity field it populates: the
heating builder in fields 26/31/35, the GVS single and split-closing
builders in fields 23/26/31/35, the reaccrual builder in its kind's
chapter and field 35; the split-opening builder leaves every quantity
field empty, so its populated quantity fields conform vacuously. -/
theorem quantity_round4_format (tariff : MonthYear → ℚ) (date : MonthYear)
    (data : OsvAddressRecord) (accural : OsvAccuralRecord)
    (odpu_file heating_average_file : AddressFile)
    (account_details : AccountDetails) (gvs : GvsDetailsRecord)
    (memo : GvsIpuInstallDates) (rdate : MonthYear) (rsum : ℚ) (k : ReaccuralType)
    (hprice : 0 < tariff date) :
    (get_field (GvsSingleResultRow tariff date data accural account_details gvs memo).1 35
        = some (.str (format4 (accural.gvs / tariff date))) ∧
      ∀ i ∈ ([23, 26, 31] : List ℕ),
        get_field (GvsSingleResultRow tariff date data accural account_details gvs memo).1 i
          = none ∨
        get_field (GvsSingleResultRow tariff date data accural account_details gvs memo).1 i
          = some (.str (format4 (accural.gvs / tariff date)))) ∧
    (∀ r, (GvsReaccuralResultRow tariff date data gvs rdate rsum k memo).1 = some r →
      get_field r 35 = some (.str (format4 (rsum / tariff date))) ∧
      ∀ i ∈ ([23, 26, 31] : List ℕ),
        get_field r i = none ∨
        get_field r i = some (.str (format4 (rsum / tariff date)))) ∧
    (∀ r, HeatingResultRow tariff date data accural odpu_file heating_average_file
        account_details = some r →
      get_field r 35 = some (.str (format4 (accural.heating / tariff date))) ∧
      ∀ i ∈ ([26, 31] : List ℕ),
        get_field r i = none ∨
        get_field r i = some (.str (format4 (accural.heating / tariff date)))) ∧
    (get_field
        (GvsMultipleResultFirstRow tariff date data accural account_details gvs memo).1 35
        = some (.str (format4 (accural.gvs / tariff date))) ∧
      ∀ i ∈ ([23, 26, 31] : List ℕ),
        get_field
          (GvsMultipleResultFirstRow tariff date data accural account_details gvs memo).1 i
          = none ∨
        get_field
          (GvsMultipleResultFirstRow tariff date data accural account_details gvs memo).1 i
          = some (.str (format4 (accural.gvs / tariff date)))) ∧
    (∀ i ∈ ([23, 26, 31, 35] : List ℕ),
      get_field
        (GvsMultipleResultSecondRow tariff date data accural account_details gvs memo).1 i
        = none) ∧
    format4 (accural.gvs / tariff date) = format4 (round4 (accural.gvs / tariff date)) ∧
    format4 (rsum / tariff date) = format4 (round4 (rsum / tariff date)) ∧
    format4 (accural.heating / tariff date)
      = format4 (round4 (accural.heating / tariff date)) ∧
    (∃ a b, format4 (accural.gvs / tariff date) = a ++ "." ++ b ∧ b.length = 4 ∧
      ∀ c ∈ b.data, c.isDigit = true) ∧
    (∃ a b, format4 (rsum / tariff date) = a ++ "." ++ b ∧ b.length = 4 ∧
      ∀ c ∈ b.data, c.isDigit = true) ∧
    (∃ a b, format4 (accural.heating / tariff date) = a ++ "." ++ b ∧ b.length = 4 ∧
      ∀ c ∈ b.data, c.isDigit = true) := by
  refine ⟨⟨?_, ?_⟩, ?_, ?_, ⟨?_, ?_⟩, ?_,
    (format4_round4 _).symm, (format4_round4 _).symm, (format4_round4 _).symm,
    format4_shape _, format4_shape _, format4_shape _⟩
  · simp [GvsSingleResultRow, BaseResultRow]
  · intro i hi
    simp only [List.mem_cons, List.not_mem_nil, or_false] at hi
    rcases hi with rfl | rfl | rfl
    · rcases Bool.eq_false_or_eq_true (qtruthy gvs.consumption_ipu) with hq | hq
      · right; simp [GvsSingleResultRow, BaseResultRow, hq]
      · left; simp [GvsSingleResultRow, BaseResultRow, hq]
    · rcases Bool.eq_false_or_eq_true (qtruthy gvs.consumption_average) with hq | hq
      · right; simp [GvsSingleResultRow, BaseResultRow, hq]
      · left; simp [GvsSingleResultRow, BaseResultRow, hq]
    · rcases Bool.eq_false_or_eq_true (qtruthy gvs.consumption_normative) with hq | hq
      · right; simp [GvsSingleResultRow, BaseResultRow, hq]
      · left; simp [GvsSingleResultRow, BaseResultRow, hq]
  · intro r h
    cases k with
    | OTHER => simp [GvsReaccuralResultRow] at h
    | IPU =>
      simp only [GvsReaccuralResultRow, Option.some.injEq] at h
      subst h
      constructor
      · simp [BaseResultRow]
      · intro i hi
        simp only [List.mem_cons, List.not_mem_nil, or_false] at hi
        rcases hi with rfl | rfl | rfl
        · right; simp [BaseResultRow]
        · left; simp [BaseResultRow]
        · left; simp [BaseResultRow]
    | AVERAGE =>
      simp only [GvsReaccuralResultRow, Option.some.injEq] at h
      subst h
      constructor
      · simp [BaseResultRow]
      · intro i hi
        simp only [List.mem_cons, List.not_mem_nil, or_false] at hi
        rcases hi with rfl | rfl | rfl
        · left; simp [BaseResultRow]
        · right; simp [BaseResultRow]
        · left; simp [BaseResultRow]
    | NORMATIVE =>
      simp only [GvsReaccuralResultRow, Option.some.injEq] at h
      subst h
      constructor
      · simp [BaseResultRow]
      · intro i hi
        simp only [List.mem_cons, List.not_mem_nil, or_false] at hi
        rcases hi with rfl | rfl | rfl
        · left; simp [BaseResultRow]
        · left; simp [BaseResultRow]
        · right; simp [BaseResultRow]
  · intro r h
    unfold HeatingResultRow at h
    cases hpay : account_details.payment date "Отопление" with
    | none => rw [hpay] at h; simp at h
    | some p =>
      cases hcb : account_details.closingBalance date "Отопление" with
      | none => rw [hpay, hcb] at h; simp at h
      | some cb =>
        rw [hpay, hcb] at h
        simp only [Option.some.injEq] at h
        subst h
        constructor
        · simp [BaseResultRow]
        · intro i hi
          simp only [List.mem_cons, List.not_mem_nil, or_false] at hi
          rcases hi with rfl | rfl
          · rcases Bool.eq_false_or_eq_true (address_in_list data.address
                (odpu_file (Nat.repr date.year)) && address_in_list data.address
                (heating_average_file (Nat.repr date.year))) with hcond | hcond
            · right; simp [BaseResultRow, hcond]
            · left; simp [BaseResultRow, hcond]
          · rcases Bool.eq_false_or_eq_true (address_in_list data.address
                (odpu_file (Nat.repr date.year)) && address_in_list data.address
                (heating_average_file (Nat.repr date.year))) with hcond | hcond
            · left; simp [BaseResultRow, hcond]
            · right; simp [BaseResultRow, hcond]
  · simp [GvsMultipleResultFirstRow, GvsSingleResultRow, BaseResultRow]
  · intro i hi
    simp only [List.mem_cons, List.not_mem_nil, or_false] at hi
    rcases hi with rfl | rfl | rfl
    · rcases Bool.eq_false_or_eq_true (qtruthy gvs.consumption_ipu) with hq | hq
      · right; simp [GvsMultipleResultFirstRow, GvsSingleResultRow, BaseResultRow, hq]
      · left; simp [GvsMultipleResultFirstRow, GvsSingleResultRow, BaseResultRow, hq]
    · rcases Bool.eq_false_or_eq_true (qtruthy gvs.consumption_average) with hq | hq
      · right; simp [GvsMultipleResultFirstRow, GvsSingleResultRow, BaseResultRow, hq]
      · left; simp [GvsMultipleResultFirstRow, GvsSingleResultRow, BaseResultRow, hq]
    · rcases Bool.eq_false_or_eq_true (qtruthy gvs.consumption_normative) with hq | hq
      · right; simp [GvsMultipleResultFirstRow, GvsSingleResultRow, BaseResultRow, hq]
      · left; simp [GvsMultipleResultFirstRow, GvsSingleResultRow, BaseResultRow, hq]
  · intro i hi
    simp only [List.mem_cons, List.not_mem_nil, or_false] at hi
    rcases hi with rfl | rfl | rfl | rfl <;>
      exact get_clearFrom_mem 23 _ 23 _ (by omega) (by omega)

theorem quantity_round4_format_witness :
    get_field (GvsSingleResultRow tTariff tDate tData tAccural tLedger tGvs tMemo).1 35
      = some (.str (format4 (tAccural.gvs / tTariff tDate))) :=
  (quantity_round4_format tTariff tDate tData tAccural tRoster tRoster tLedger tGvs tMemo
    tRDate 100 .IPU (by decide)).1.1

/-- Claim C7: a GVS row built from a metering fact with a (nonempty)
counter id and no counter number gets the id with suffix "_2" as its
serial field 14, and the synthesized number is stored back into the
metering fact, so any subsequent builder reusing the returned fact sees
the same serial. -/
theorem counter_number_synthesis (tariff tariff2 : MonthYear → ℚ) (date date2 : MonthYear)
    (data data2 : OsvAddressRecord) (accural accural2 : OsvAccuralRecord)
    (account_details account_details2 : AccountDetails) (gvs : GvsDetailsRecord)
    (memo memo2 : GvsIpuInstallDates) (rdate : MonthYear) (rsum : ℚ) (k : ReaccuralType)
    (cid : String) (hid : gvs.counter_id = some cid) (hcid : cid ≠ "")
    (hnum : gvs.counter_number = none) :
    get_field (GvsSingleResultRow tariff date data accural account_details gvs memo).1 14
      = some (.str (cid ++ "_2")) ∧
    (GvsSingleResultRow tariff date data accural account_details gvs memo).2.counter_number
      = some (cid ++ "_2") ∧
    get_field (GvsSingleResultRow tariff2 date2 data2 accural2 account_details2
      (GvsSingleResultRow tariff date data accural account_details gvs memo).2 memo2).1 14
      = some (.str (cid ++ "_2")) ∧
    (∀ r, (GvsReaccuralResultRow tariff date data gvs rdate rsum k memo).1 = some r →
      get_field r 14 = some (.str (cid ++ "_2"))) := by
  have hbe : (cid == "") = false := beq_eq_false_iff_ne.mpr hcid
  have hres : resolveCounterNumber gvs =
      { gvs with counter_id := some cid, counter_number := some (cid ++ "_2") } := by
    simp [resolveCounterNumber, struthy, hid, hnum, hbe, pyStr, get_new_counter_number]
  have hres2 : resolveCounterNumber
      { gvs with counter_id := some cid, counter_number := some (cid ++ "_2") } =
      { gvs with counter_id := some cid, counter_number := some (cid ++ "_2") } := by
    unfold resolveCounterNumber
    split_ifs <;> simp [pyStr, get_new_counter_number]
  refine ⟨?_, ?_, ?_, ?_⟩
  · simp [GvsSingleResultRow, BaseResultRow, struthy, hid, hnum, hbe, hres]
  · simp [hres]
  · simp [GvsSingleResultRow, BaseResultRow, struthy, hbe, hres, hres2]
  · intro r h
    cases k with
    | OTHER => simp [GvsReaccuralResultRow] at h
    | IPU =>
      simp only [GvsReaccuralResultRow, Option.some.injEq] at h
      subst h
      simp [BaseResultRow, struthy, hid, hbe, hres]
    | AVERAGE =>
      simp only [GvsReaccuralResultRow, Option.some.injEq] at h
      subst h
      simp [BaseResultRow, struthy, hid, hbe, hres]
    | NORMATIVE =>
      simp only [GvsReaccuralResultRow, Option.some.injEq] at h
      subst h
      simp [BaseResultRow, struthy, hid, hbe, hres]

theorem counter_number_synthesis_witness :
    get_field (GvsSingleResultRow tTariff tDate tData tAccural tLedger tGvs tMemo).1 14
      = some (.str ("X9" ++ "_2")) ∧
    (GvsSingleResultRow tTariff tDate tData tAccural tLedger tGvs tMemo).2.counter_number
      = some ("X9" ++ "_2") ∧
    get_field (GvsSingleResultRow tTariff tDate tData tAccural tLedger
      (GvsSingleResultRow tTariff tDate tData tAccural tLedger tGvs tMemo).2 tMemo).1 14
      = some (.str ("X9" ++ "_2")) ∧
    (∀ r, (GvsReaccuralResultRow tTariff tDate tData tGvs tRDate 100 .IPU tMemo).1
        = some r →
      get_field r 14 = some (.str ("X9" ++ "_2"))) :=
  counter_number_synthesis tTariff tTariff tDate tDate tData tData tAccural tAccural
    tLedger tLedger tGvs tMemo tMemo tRDate 100 .IPU "X9" rfl (by decide) rfl

/-- Claim C9: every row carries exactly 47 positional fields: the base
initialization leaves every field it does not assign at the null value,
and `as_list` always yields a list of exactly `MAX_FIELDS` elements, the
element at each index being exactly that field's value. -/
theorem row_has_47_fields :
    (∀ r : Row, (as_list r).length = BaseResultRow.MAX_FIELDS) ∧
    (∀ (price : ℚ) (date : MonthYear) (data : OsvAddressRecord) (i : ℕ),
      i ≠ 0 → i ≠ 1 → i ≠ 2 → i ≠ 3 → i ≠ 6 → i ≠ 7 → i ≠ 8 →
      get_field (BaseResultRow price date data) i = none) ∧
    (∀ (r : Row) (i : ℕ), i < BaseResultRow.MAX_FIELDS →
      (as_list r).get? i = some (get_field r i)) := by
  refine ⟨fun r => by simp [as_list], ?_, ?_⟩
  · intro price date data i h0 h1 h2 h3 h6 h7 h8
    simp [BaseResultRow, h0, h1, h2, h3, h6, h7, h8]
  · intro r i hi
    simp [as_list, List.get?_eq_getElem?, List.getElem?_map, List.getElem?_range hi]

theorem row_has_47_fields_witness :
    (as_list emptyRow).length = BaseResultRow.MAX_FIELDS ∧
    get_field (BaseResultRow 50 tDate tData) 20 = none ∧
    (as_list emptyRow).get? 5 = some (get_field emptyRow 5) :=
  ⟨row_has_47_fields.1 emptyRow,
    row_has_47_fields.2.1 50 tDate tData 20 (by decide) (by decide) (by decide) (by decide)
      (by decide) (by decide) (by decide),
    row_has_47_fields.2.2 emptyRow 5 (by decide)⟩

/-- Claim C10: when a split-opening row is built from a metering fact
whose current-reading date is absent, the install-date memo entry for
that account is still written — holding the absent value — so any later
GVS single row for the same account finds the key, gets the absent stored
value instead of the documented default "01.01.2019", and therefore has
an empty install-date field 10. -/
theorem memo_written_with_absent_date (tariff tariff2 : MonthYear → ℚ)
    (date date2 : MonthYear) (data data2 : OsvAddressRecord)
    (accural accural2 : OsvAccuralRecord)
    (account_details account_details2 : AccountDetails) (gvs gvs2 : GvsDetailsRecord)
    (memo : GvsIpuInstallDates)
    (hdate : gvs.metric_date_current = none)
    (hacct : data2.account = gvs.account) :
    (GvsMultipleResultSecondRow tariff date data accural account_details gvs memo).2.2.lookup
      gvs.account = some none ∧
    installDateGet
      (GvsMultipleResultSecondRow tariff date data accural account_details gvs memo).2.2
      data2.account = none ∧
    get_field (GvsSingleResultRow tariff2 date2 data2 accural2 account_details2 gvs2
      (GvsMultipleResultSecondRow tariff date data accural account_details gvs memo).2.2).1
      10 = none := by
  have hmemo : installDateGet (installDateSet memo gvs.account none) data2.account = none := by
    simp [installDateGet, installDateSet, hacct, List.lookup]
  refine ⟨?_, ?_, ?_⟩
  · simp [installDateSet, hdate, List.lookup]
  · simp [hdate, hmemo]
  · simp [GvsSingleResultRow, BaseResultRow, hdate, hmemo]

theorem memo_written_with_absent_date_witness :
    (GvsMultipleResultSecondRow tTariff tDate tData tAccural tLedger tGvsNoDate
      tMemo).2.2.lookup tGvsNoDate.account = some none ∧
    installDateGet (GvsMultipleResultSecondRow tTariff tDate tData tAccural tLedger
      tGvsNoDate tMemo).2.2 tData.account = none ∧
    get_field (GvsSingleResultRow tTariff tDate tData tAccural tLedger tGvs
      (GvsMultipleResultSecondRow tTariff tDate tData tAccural tLedger tGvsNoDate
        tMemo).2.2).1 10 = none :=
  memo_written_with_absent_date tTariff tTariff tDate tDate tData tData tAccural tAccural
    tLedger tLedger tGvsNoDate tGvs tMemo rfl rfl
